import Mathlib

/-!
Verification of the payment-event reconciliation engine
(`supabase/functions/stripe-webhook/index.ts`).

The TypeScript source is shallowly embedded: each JS function becomes a
Lean function, the database tables become lists of rows threaded through
the handler as explicit state, and the platform primitives that are not
part of the repository (Web-Crypto HMAC, `JSON.parse`, the Stripe REST
fetch) become function parameters of the handler, so that theorems
quantify over their behaviour.

Modelling conventions:
  * JS strings are Lean `String`s (all values of interest are ASCII).
  * `undefined` / `null` / absent fields are `Option`.
  * ISO timestamps produced by `new Date(...).toISOString()` are kept
    abstract: `updated_at` is a `String` supplied as the explicit `now`
    argument, and `current_period_end` keeps the unix-seconds integer
    (the JS conversion to an ISO string is an injective formatting of
    that integer and plays no role in any property).
-/

namespace OnlyPaws

/-- The ASCII whitespace characters JS `trim` removes from the strings of
interest. -/
def isWsChar (c : Char) : Bool :=
  c = ' ' ∨ c = '\t' ∨ c = '\n' ∨ c = '\r'

/-- JS `String.prototype.trim` (over the character list, so that it
evaluates inside the kernel). -/
def jsTrim (s : String) : String :=
  ⟨(((s.data.dropWhile isWsChar).reverse.dropWhile isWsChar).reverse)⟩

/-- JS `String.prototype.split(",")` (over the character list). -/
def splitCommaAux : List Char → List Char → List (List Char)
  | [], acc => [acc.reverse]
  | c :: cs, acc =>
    if c = ',' then acc.reverse :: splitCommaAux cs []
    else splitCommaAux cs (c :: acc)

def jsSplitComma (s : String) : List String :=
  (splitCommaAux s.data []).map (fun l => ⟨l⟩)

/-- JS `String.prototype.startsWith` (over the character list). -/
def strStartsWith (s pat : String) : Bool :=
  pat.data.isPrefixOf s.data

/-- JS `String.prototype.slice(n)` for a non-negative `n` (over the
character list; the values of interest are ASCII, where JS UTF-16 indices
and characters coincide). -/
def strDrop (s : String) (n : Nat) : String :=
  ⟨s.data.drop n⟩

/-- JS `safeStr`: `typeof x === "string" ? x : ""`, then `.trim()`.
A non-string (absent) value is `none`. -/
def safeStr (x : Option String) : String :=
  jsTrim (x.getD "")

/-- JS `String.prototype.toLowerCase` restricted to the ASCII range, which
covers every status string the provider emits. -/
def jsToLower (s : String) : String :=
  ⟨s.data.map Char.toLower⟩

/-- JS `isoFromUnix`: `if (!sec) return null` — both `null`/`undefined`
and `0` give `null`; otherwise the timestamp (kept as unix seconds, see
module comment). -/
def isoFromUnix (sec : Option Int) : Option Int :=
  match sec with
  | none => none
  | some n => if n = 0 then none else some n

/-- JS `mapStatusToDb` from the webhook source: lower-case the provider
status, then the fixed if-chain. -/
def mapStatusToDb (status : String) : String :=
  let s := jsToLower status
  if s = "active" ∨ s = "trialing" then "active"
  else if s = "past_due" ∨ s = "unpaid" then "past_due"
  else if s = "canceled" then "canceled"
  else if s = "incomplete_expired" ∨ s = "incomplete" then "expired"
  else if s = "paused" then "past_due"
  else "past_due"

/-! ### Signature verification (`parseStripeSigHeader`, `timingSafeEqual`,
`verifyStripeSignature`) -/

structure SigParts where
  t : String
  v1s : List String
deriving Repr, DecidableEq

/-- JS `parseStripeSigHeader`: split on `","`, trim each part, take the
first `t=`-part (dropping 2 chars) and all `v1=`-parts (dropping 3). -/
def parseStripeSigHeader (sig : String) : SigParts :=
  let parts := (jsSplitComma sig).map jsTrim
  let t :=
    match parts.find? (fun p => strStartsWith p "t=") with
    | some p => strDrop p 2
    | none => ""
  let v1s :=
    (parts.filter (fun p => strStartsWith p "v1=")).map (fun p => strDrop p 3)
  ⟨t, v1s⟩

/-- JS `timingSafeEqual`: length check, then OR together the XORs of the
char codes and compare the accumulator with 0. -/
def timingSafeEqual (a b : String) : Bool :=
  if a.length ≠ b.length then false
  else
    ((a.data.zip b.data).foldl
      (fun out p => out ||| (p.1.toNat ^^^ p.2.toNat)) 0) == 0

/-- JS `verifyStripeSignature`, with the Web-Crypto
`HMAC-SHA256(secret, message) → hex` primitive abstracted as `hmac`. -/
def verifyStripeSignature (hmac : String → String → String)
    (rawBody sigHeader secret : String) : Bool :=
  let parsed := parseStripeSigHeader sigHeader
  if parsed.t = "" ∨ parsed.v1s.isEmpty then false
  else
    let signedPayload := parsed.t ++ "." ++ rawBody
    let expected := hmac secret signedPayload
    parsed.v1s.any (fun v1 => timingSafeEqual v1 expected)

/-! ### Ledger data model -/

/-- One `creator_subscriptions` row (the billing fields the webhook
writes). -/
structure SubRow where
  fan_id : String
  creator_id : String
  status : String
  is_active : Bool
  current_period_end : Option Int
  stripe_customer_id : Option String
  stripe_subscription_id : Option String
  updated_at : String
deriving Repr, DecidableEq

/-- One `profiles` row (the connected-account fields the webhook touches). -/
structure ProfileRow where
  user_id : String
  stripe_connect_account_id : Option String
  stripe_account_id : Option String
  charges_enabled : Bool
  payouts_enabled : Bool
  stripe_onboarding_status : String
deriving Repr, DecidableEq

/-- One `entitlements` row. -/
structure EntRow where
  user_id : String
  key : String
  status : String
  updated_at : String
deriving Repr, DecidableEq

/-- The ledger store the webhook writes to. -/
structure Store where
  creator_subscriptions : List SubRow
  profiles : List ProfileRow
  entitlements : List EntRow
deriving Repr, DecidableEq

/-- Key match used by the `creator_subscriptions` upsert
(`on_conflict=creator_id,fan_id`). -/
def subKeyMatch (creatorId fanId : String) (x : SubRow) : Bool :=
  x.creator_id == creatorId && x.fan_id == fanId

/-- The payload of `upsertCreatorSubscriptionRow` (everything but
`updated_at`, which the function stamps itself). -/
structure SubInput where
  fan_id : String
  creator_id : String
  status : String
  is_active : Bool
  stripe_customer_id : Option String
  stripe_subscription_id : Option String
  current_period_end : Option Int
deriving Repr, DecidableEq

/-- The record `upsertCreatorSubscriptionRow` posts: the payload plus the
stamped `updated_at`. -/
def subRecord (row : SubInput) (now : String) : SubRow :=
  { fan_id := row.fan_id
    creator_id := row.creator_id
    status := row.status
    is_active := row.is_active
    current_period_end := row.current_period_end
    stripe_customer_id := row.stripe_customer_id
    stripe_subscription_id := row.stripe_subscription_id
    updated_at := now }

/-- JS `upsertCreatorSubscriptionRow`: POST with
`on_conflict=creator_id,fan_id` and `resolution=merge-duplicates`, i.e.
insert-or-update keyed by (creator_id, fan_id), stamping `updated_at`. -/
def upsertCreatorSubscriptionRow (row : SubInput) (now : String)
    (L : List SubRow) : List SubRow :=
  if L.any (subKeyMatch row.creator_id row.fan_id) then
    L.map (fun x =>
      if subKeyMatch row.creator_id row.fan_id x then subRecord row now else x)
  else
    L ++ [subRecord row now]

/-- JS `cancelByStripeSubscriptionId`: PATCH every row whose
`stripe_subscription_id` equals the given id to
`status="canceled", is_active=false`, stamping `updated_at`. -/
def cancelByStripeSubscriptionId (stripeSubId : String) (now : String)
    (L : List SubRow) : List SubRow :=
  L.map (fun r =>
    if r.stripe_subscription_id == some stripeSubId then
      { r with status := "canceled", is_active := false, updated_at := now }
    else r)

/-! ### Event objects -/

/-- The `customer` field of a subscription object: either a plain id
string or an expanded customer object. -/
inductive CustomerField where
  | str (s : String)
  | obj (id : Option String)
deriving Repr, DecidableEq

/-- The `metadata` map fields the webhook reads. -/
structure MetadataObj where
  fan_id : Option String
  creator_id : Option String
deriving Repr, DecidableEq

/-- The dynamic `event.data.object` (also the shape of a subscription
fetched from the provider): only the fields the handler accesses. -/
structure EventObj where
  id : Option String
  mode : Option String
  subscription : Option String
  metadata : Option MetadataObj
  customer : Option CustomerField
  status : Option String
  current_period_end : Option Int
  cancel_at_period_end : Bool
  charges_enabled : Bool
  payouts_enabled : Bool
deriving Repr, DecidableEq

/-- The parsed event envelope: `event?.type` and `event?.data?.object`. -/
structure Event where
  type : Option String
  data_object : Option EventObj
deriving Repr, DecidableEq

/-- `safeStr(sub?.customer)`: a string customer trims, anything else is "". -/
def customerAsStr (c : Option CustomerField) : String :=
  match c with
  | some (.str s) => jsTrim s
  | _ => ""

/-- `safeStr(sub?.customer?.id)`: only an expanded customer object has an
`id` property. -/
def customerIdStr (c : Option CustomerField) : String :=
  match c with
  | some (.obj oid) => safeStr oid
  | _ => ""

/-- JS `a || b`: first non-empty string. -/
def jsOrElse (a b : String) : String :=
  if a = "" then b else a

/-- JS `s || null` as an `Option`. -/
def strOrNull (s : String) : Option String :=
  if s = "" then none else some s

/-- The `SubInput` that `upsertFromStripeSubscription` builds from a
subscription subject (its local computations, as one record). -/
def subInputOf (sub : Option EventObj) : SubInput :=
  let fan_id := safeStr ((sub.bind (·.metadata)).bind (·.fan_id))
  let creator_id := safeStr ((sub.bind (·.metadata)).bind (·.creator_id))
  let customerId :=
    strOrNull (jsOrElse (customerAsStr (sub.bind (·.customer)))
                        (customerIdStr (sub.bind (·.customer))))
  let stripeStatus := jsOrElse ((sub.bind (·.status)).getD "") "past_due"
  let statusDbBase := mapStatusToDb stripeStatus
  let cpe := isoFromUnix (sub.bind (·.current_period_end))
  let cancelAtPeriodEnd := (sub.map (·.cancel_at_period_end)).getD false
  let statusDb := if cancelAtPeriodEnd then "canceled" else statusDbBase
  let isActive :=
    if cancelAtPeriodEnd then true
    else statusDbBase == "active" || statusDbBase == "past_due"
  { fan_id := fan_id
    creator_id := creator_id
    status := statusDb
    is_active := isActive
    stripe_customer_id := customerId
    stripe_subscription_id := strOrNull (safeStr (sub.bind (·.id)))
    current_period_end := cpe }

/-- JS `upsertFromStripeSubscription`: read the correlation metadata; if
either id is missing, log and return without writing; otherwise map the
provider status, apply the scheduled-cancel override, and upsert. -/
def upsertFromStripeSubscription (sub : Option EventObj) (now : String)
    (L : List SubRow) : List SubRow :=
  let fan_id := safeStr ((sub.bind (·.metadata)).bind (·.fan_id))
  let creator_id := safeStr ((sub.bind (·.metadata)).bind (·.creator_id))
  if fan_id = "" ∨ creator_id = "" then L
  else upsertCreatorSubscriptionRow (subInputOf sub) now L

/-! ### Account path (`account.updated` branch) -/

/-- PostgREST upsert into `entitlements` with
`resolution=merge-duplicates` (conflict key: `(user_id, key)`). -/
def upsertEntitlement (e : EntRow) (L : List EntRow) : List EntRow :=
  if L.any (fun x => x.user_id == e.user_id && x.key == e.key) then
    L.map (fun x => if x.user_id == e.user_id && x.key == e.key then e else x)
  else
    L ++ [e]

/-- The two profile lookups of the `account.updated` branch: first by
`stripe_connect_account_id`, then (when that yields no row, or a row with
a falsy `user_id`) by `stripe_account_id`; the result is the `user_id`
when truthy. -/
def lookupProfileUserId (profiles : List ProfileRow) (acctId : String) :
    Option String :=
  let prof1 := (profiles.filter
    (fun p => p.stripe_connect_account_id == some acctId)).head?
  let prof :=
    match prof1 with
    | some p =>
      if p.user_id = "" then
        (profiles.filter
          (fun (q : ProfileRow) => q.stripe_account_id == some acctId)).head?
      else some p
    | none =>
      (profiles.filter
        (fun (q : ProfileRow) => q.stripe_account_id == some acctId)).head?
  match prof with
  | some p => if p.user_id = "" then none else some p.user_id
  | none => none

/-- The profile PATCH of the `account.updated` branch
(`profiles?user_id=eq.<userId>`). -/
def patchProfileFlags (userId : String) (charges payouts : Bool)
    (onboarding : String) (L : List ProfileRow) : List ProfileRow :=
  L.map (fun p =>
    if p.user_id == userId then
      { p with
        charges_enabled := charges
        payouts_enabled := payouts
        stripe_onboarding_status := onboarding }
    else p)

/-- The `account.updated` branch of the handler: resolve the profile by
connected-account id, patch the flags and the onboarding status, and,
when both flags are enabled, upsert the payout entitlement. -/
def handleAccountUpdated (obj : Option EventObj) (now : String)
    (st : Store) : Store :=
  let acctId := safeStr (obj.bind (·.id))
  let chargesEnabled := (obj.map (·.charges_enabled)).getD false
  let payoutsEnabled := (obj.map (·.payouts_enabled)).getD false
  let onboardingDone := chargesEnabled && payoutsEnabled
  if acctId = "" then st
  else
    match lookupProfileUserId st.profiles acctId with
    | none => st
    | some userId =>
      let profiles' := patchProfileFlags userId chargesEnabled payoutsEnabled
        (if onboardingDone then "completed" else "started") st.profiles
      let ents' :=
        if onboardingDone then
          upsertEntitlement
            { user_id := userId, key := "payouts_enabled",
              status := "active", updated_at := now }
            st.entitlements
        else st.entitlements
      { st with profiles := profiles', entitlements := ents' }

/-! ### The HTTP handler (`Deno.serve`) -/

structure HttpRequest where
  method : String
  stripe_signature : Option String
  rawBody : String
deriving Repr, DecidableEq

structure HttpResponse where
  body : String
  status : Nat
deriving Repr, DecidableEq

/-- The `try`-block of the handler. Platform primitives are parameters:
`hmac` (Web-Crypto), `jsonParse` (JSON.parse: `.error` = throw), and
`stripeSubs` (GET `/v1/subscriptions/{id}`: `.error` = throw). The
`patchSubscriptionMetadata` call of the checkout branch is a
provider-side write whose failure is caught and only logged; it has no
ledger effect, so it does not appear in the state. -/
def handleInner (hmac : String → String → String)
    (jsonParse : String → Except String Event)
    (stripeSubs : String → Except String EventObj)
    (secret now : String) (req : HttpRequest) (st : Store) :
    Except String (Store × HttpResponse) :=
  match req.stripe_signature with
  | none => .ok (st, ⟨"Missing stripe-signature", 400⟩)
  | some sig =>
    if verifyStripeSignature hmac req.rawBody sig secret = false then
      .ok (st, ⟨"Webhook Error: invalid signature", 400⟩)
    else
      match jsonParse req.rawBody with
      | .error e => .error e
      | .ok event =>
        let ty := safeStr event.type
        let obj := event.data_object
        if ty = "account.updated" then
          .ok (handleAccountUpdated obj now st, ⟨"ok", 200⟩)
        else if ty = "checkout.session.completed" then
          let mode := safeStr (obj.bind (·.mode))
          if mode ≠ "subscription" then .ok (st, ⟨"ok", 200⟩)
          else
            let subId := safeStr (obj.bind (·.subscription))
            if subId = "" then .ok (st, ⟨"ok", 200⟩)
            else
              match stripeSubs subId with
              | .error e => .error e
              | .ok sub =>
                let subs' := upsertFromStripeSubscription (some sub) now
                  st.creator_subscriptions
                .ok ({ st with creator_subscriptions := subs' }, ⟨"ok", 200⟩)
        else if ty = "customer.subscription.created" ∨
                ty = "customer.subscription.updated" then
          let subs' := upsertFromStripeSubscription obj now
            st.creator_subscriptions
          .ok ({ st with creator_subscriptions := subs' }, ⟨"ok", 200⟩)
        else if ty = "invoice_payment.paid" ∨
                ty = "invoice.payment_succeeded" ∨ ty = "invoice.paid" then
          let subId := safeStr (obj.bind (·.subscription))
          if subId = "" then .ok (st, ⟨"ok", 200⟩)
          else
            match stripeSubs subId with
            | .error e => .error e
            | .ok sub =>
              let subs' := upsertFromStripeSubscription (some sub) now
                st.creator_subscriptions
              .ok ({ st with creator_subscriptions := subs' }, ⟨"ok", 200⟩)
        else if ty = "customer.subscription.deleted" then
          let subId := safeStr (obj.bind (·.id))
          if subId = "" then .ok (st, ⟨"ok", 200⟩)
          else
            let subs' := cancelByStripeSubscriptionId subId now
              st.creator_subscriptions
            .ok ({ st with creator_subscriptions := subs' }, ⟨"ok", 200⟩)
        else .ok (st, ⟨"ok", 200⟩)

/-- The full request handler: method dispatch, then the `try`-block with
the `catch` that converts a thrown error into a 500 response. -/
def handleRequest (hmac : String → String → String)
    (jsonParse : String → Except String Event)
    (stripeSubs : String → Except String EventObj)
    (secret now : String) (req : HttpRequest) (st : Store) :
    Store × HttpResponse :=
  if req.method = "OPTIONS" then (st, ⟨"ok", 200⟩)
  else if req.method ≠ "POST" then (st, ⟨"Method not allowed", 405⟩)
  else
    match handleInner hmac jsonParse stripeSubs secret now req st with
    | .ok r => r
    | .error msg => (st, ⟨"Server Error: " ++ msg, 500⟩)

/-! ## Lemmas about the signature verifier -/

theorem lor_eq_zero (a b : Nat) : a ||| b = 0 ↔ a = 0 ∧ b = 0 := by
  constructor
  · intro h
    refine ⟨Nat.eq_of_testBit_eq fun i => ?_, Nat.eq_of_testBit_eq fun i => ?_⟩ <;>
    · have hb := congrArg (fun n => Nat.testBit n i) h
      simp only [Nat.testBit_or, Nat.zero_testBit, Bool.or_eq_false_iff] at hb
      simp [hb.1, hb.2, Nat.zero_testBit]
  · rintro ⟨rfl, rfl⟩
    simp

theorem charToNat_inj {a b : Char} (h : a.toNat = b.toNat) : a = b := by
  have h2 := congrArg Char.ofNat h
  rwa [Char.ofNat_toNat, Char.ofNat_toNat] at h2

theorem foldl_or_xor_eq_zero (l : List (Char × Char)) (acc : Nat) :
    l.foldl (fun out p => out ||| (p.1.toNat ^^^ p.2.toNat)) acc = 0 ↔
      acc = 0 ∧ ∀ p ∈ l, p.1 = p.2 := by
  induction l generalizing acc with
  | nil => simp
  | cons q t ih =>
    simp only [List.foldl_cons, ih, List.mem_cons]
    rw [lor_eq_zero]
    constructor
    · rintro ⟨⟨ha, hx⟩, hall⟩
      have hq : q.1 = q.2 := charToNat_inj (Nat.xor_eq_zero.mp hx)
      refine ⟨ha, fun p hp => ?_⟩
      rcases hp with rfl | hp
      · exact hq
      · exact hall p hp
    · rintro ⟨ha, hall⟩
      refine ⟨⟨ha, ?_⟩, fun p hp => hall p (Or.inr hp)⟩
      rw [hall q (Or.inl rfl), Nat.xor_self]

theorem zip_self_of_mem :
    ∀ (l : List Char) (p : Char × Char), p ∈ l.zip l → p.1 = p.2
  | [], p, hp => by simp at hp
  | a :: t, p, hp => by
    rw [List.zip_cons_cons, List.mem_cons] at hp
    rcases hp with rfl | hp
    · rfl
    · exact zip_self_of_mem t p hp

theorem eq_of_zip_eq :
    ∀ (l₁ l₂ : List Char), l₁.length = l₂.length →
      (∀ p ∈ l₁.zip l₂, p.1 = p.2) → l₁ = l₂
  | [], [], _, _ => rfl
  | [], _ :: _, hlen, _ => by simp at hlen
  | _ :: _, [], hlen, _ => by simp at hlen
  | a :: t₁, b :: t₂, hlen, h => by
    have h1 : a = b := h (a, b) (by rw [List.zip_cons_cons]; exact List.mem_cons_self _ _)
    have h2 : t₁ = t₂ :=
      eq_of_zip_eq t₁ t₂ (by simpa using hlen)
        (fun p hp => h p (by rw [List.zip_cons_cons]; exact List.mem_cons_of_mem _ hp))
    rw [h1, h2]

/-- `timingSafeEqual` is an equality test: it accepts exactly when the two
strings are equal. -/
theorem timingSafeEqual_eq_true_iff (a b : String) :
    timingSafeEqual a b = true ↔ a = b := by
  unfold timingSafeEqual
  by_cases hlen : a.length = b.length
  · rw [if_neg (by simp [hlen])]
    rw [beq_iff_eq, foldl_or_xor_eq_zero]
    constructor
    · rintro ⟨-, hall⟩
      have hdata : a.data = b.data := eq_of_zip_eq a.data b.data hlen hall
      cases a; cases b
      exact congrArg String.mk hdata
    · rintro rfl
      exact ⟨rfl, fun p hp => zip_self_of_mem a.data p hp⟩
  · rw [if_pos hlen]
    simp only [Bool.false_eq_true, false_iff]
    intro h
    exact hlen (by rw [h])

/-- C2: for every raw body, signature header carrying a timestamp, and
secret, verification computes the HMAC digest of `"<t>.<raw-body>"` and
accepts exactly when at least one `v1` value of the header equals that
digest; consequently a change of the body that changes the digest, or of
the matching `v1` value, makes verification fail, while a header with
several rotated `v1` values is accepted as soon as one matches. -/
theorem verifyStripeSignature_accepts_iff (hmac : String → String → String)
    (rawBody sigHeader secret : String)
    (ht : (parseStripeSigHeader sigHeader).t ≠ "") :
    verifyStripeSignature hmac rawBody sigHeader secret = true ↔
      ∃ v1 ∈ (parseStripeSigHeader sigHeader).v1s,
        v1 = hmac secret ((parseStripeSigHeader sigHeader).t ++ "." ++ rawBody) := by
  unfold verifyStripeSignature
  by_cases hv : (parseStripeSigHeader sigHeader).v1s.isEmpty
  · rw [if_pos (Or.inr hv)]
    rw [List.isEmpty_iff] at hv
    simp [hv]
  · rw [if_neg (by simp [ht, hv])]
    rw [List.any_eq_true]
    constructor
    · rintro ⟨v1, hmem, heq⟩
      exact ⟨v1, hmem, (timingSafeEqual_eq_true_iff _ _).mp heq⟩
    · rintro ⟨v1, hmem, heq⟩
      exact ⟨v1, hmem, (timingSafeEqual_eq_true_iff _ _).mpr heq⟩

/-- Witness for C2: a concrete header with two rotated `v1` values, the
second of which matches the digest of `"5.hi"` under a concrete `hmac`. -/
theorem verifyStripeSignature_accepts_iff_witness :
    verifyStripeSignature (fun s m => s ++ "#" ++ m) "hi"
      "t=5,v1=zzz,v1=sek#5.hi" "sek" = true :=
  (verifyStripeSignature_accepts_iff (fun s m => s ++ "#" ++ m) "hi"
      "t=5,v1=zzz,v1=sek#5.hi" "sek" (by decide)).mpr
    ⟨"sek#5.hi", by decide, by decide⟩

/-! ## Lemmas about the ledger upsert -/

/-- The posted record matches its own conflict key. -/
theorem subKeyMatch_subRecord (row : SubInput) (now : String) :
    subKeyMatch row.creator_id row.fan_id (subRecord row now) = true := by
  simp [subKeyMatch, subRecord]

/-- Rows matching the conflict key of a replaced row keep matching it, and
vice versa: the upsert's map step never changes which key a row has. -/
theorem subKeyMatch_upsFun (row : SubInput) (now : String) (c f : String)
    (x : SubRow) :
    subKeyMatch c f
        (if subKeyMatch row.creator_id row.fan_id x then subRecord row now
         else x) =
      subKeyMatch c f x := by
  by_cases hx : subKeyMatch row.creator_id row.fan_id x = true
  · rw [if_pos hx]
    simp only [subKeyMatch, Bool.and_eq_true, beq_iff_eq] at hx
    simp [subKeyMatch, subRecord, hx.1, hx.2]
  · rw [if_neg hx]

/-- Every row of the upsert result that matches the conflict key is the
posted record. -/
theorem upsertRow_key_rows (row : SubInput) (now : String) (L : List SubRow) :
    ∀ x ∈ upsertCreatorSubscriptionRow row now L,
      subKeyMatch row.creator_id row.fan_id x = true → x = subRecord row now := by
  intro x hx hkey
  unfold upsertCreatorSubscriptionRow at hx
  by_cases h : L.any (subKeyMatch row.creator_id row.fan_id) = true
  · rw [if_pos h] at hx
    obtain ⟨y, hy, hfy⟩ := List.mem_map.mp hx
    by_cases hys : subKeyMatch row.creator_id row.fan_id y = true
    · rw [if_pos hys] at hfy
      exact hfy.symm
    · rw [if_neg hys] at hfy
      rw [← hfy] at hkey
      exact absurd hkey hys
  · rw [if_neg h] at hx
    rcases List.mem_append.mp hx with hx | hx
    · rw [List.any_eq_true] at h
      exact absurd ⟨x, hx, hkey⟩ h
    · simpa using hx

/-- The posted record is in the upsert result. -/
theorem upsertRow_mem (row : SubInput) (now : String) (L : List SubRow) :
    subRecord row now ∈ upsertCreatorSubscriptionRow row now L := by
  unfold upsertCreatorSubscriptionRow
  by_cases h : L.any (subKeyMatch row.creator_id row.fan_id) = true
  · rw [if_pos h]
    obtain ⟨y, hy, hys⟩ := List.any_eq_true.mp h
    exact List.mem_map.mpr ⟨y, hy, by rw [if_pos hys]⟩
  · rw [if_neg h]
    exact List.mem_append.mpr (Or.inr (by simp))

/-- The low-level upsert is idempotent. -/
theorem upsertRow_idem (row : SubInput) (now : String) (L : List SubRow) :
    upsertCreatorSubscriptionRow row now (upsertCreatorSubscriptionRow row now L) =
      upsertCreatorSubscriptionRow row now L := by
  have hfun :
      (fun x =>
          if subKeyMatch row.creator_id row.fan_id x then subRecord row now
          else x) ∘
        (fun x =>
          if subKeyMatch row.creator_id row.fan_id x then subRecord row now
          else x) =
      (fun x =>
        if subKeyMatch row.creator_id row.fan_id x then subRecord row now
        else x) := by
    funext x
    by_cases hx : subKeyMatch row.creator_id row.fan_id x = true
    · simp [Function.comp, hx, subKeyMatch_subRecord]
    · simp [Function.comp, hx]
  conv_lhs => rw [upsertCreatorSubscriptionRow]
  by_cases h : L.any (subKeyMatch row.creator_id row.fan_id) = true
  · rw [upsertCreatorSubscriptionRow, if_pos h]
    have hany :
        (L.map (fun x =>
          if subKeyMatch row.creator_id row.fan_id x then subRecord row now
          else x)).any (subKeyMatch row.creator_id row.fan_id) = true := by
      obtain ⟨y, hy, hys⟩ := List.any_eq_true.mp h
      exact List.any_eq_true.mpr
        ⟨subRecord row now,
         List.mem_map.mpr ⟨y, hy, by rw [if_pos hys]⟩,
         subKeyMatch_subRecord row now⟩
    rw [if_pos hany, List.map_map, hfun]
  · rw [upsertCreatorSubscriptionRow, if_neg h]
    have hany :
        (L ++ [subRecord row now]).any
          (subKeyMatch row.creator_id row.fan_id) = true :=
      List.any_eq_true.mpr
        ⟨subRecord row now, List.mem_append.mpr (Or.inr (by simp)),
         subKeyMatch_subRecord row now⟩
    rw [if_pos hany, List.map_append]
    have hmapL :
        L.map (fun x =>
          if subKeyMatch row.creator_id row.fan_id x then subRecord row now
          else x) = L := by
      have hid :
          L.map (fun x =>
            if subKeyMatch row.creator_id row.fan_id x then subRecord row now
            else x) = L.map id := by
        apply List.map_congr_left
        intro x hx
        have hnx : subKeyMatch row.creator_id row.fan_id x ≠ true := by
          intro hxk
          rw [List.any_eq_true] at h
          exact h ⟨x, hx, hxk⟩
        simp [if_neg hnx]
      rw [hid, List.map_id]
    rw [hmapL]
    simp [subKeyMatch_subRecord]

/-- Number of ledger rows carrying a given (creator, fan) conflict key. -/
def keyCountBy (L : List SubRow) (c f : String) : Nat :=
  (L.filter (fun x => subKeyMatch c f x)).length

/-- The ledger invariant: at most one row per (creator, fan) key. -/
def UniqueSubKeys (L : List SubRow) : Prop :=
  ∀ c f, keyCountBy L c f ≤ 1

theorem keyCountBy_map_upsFun (row : SubInput) (now : String)
    (c f : String) (L : List SubRow) :
    keyCountBy
        (L.map (fun x =>
          if subKeyMatch row.creator_id row.fan_id x then subRecord row now
          else x)) c f =
      keyCountBy L c f := by
  induction L with
  | nil => rfl
  | cons a t ih =>
    simp only [keyCountBy, List.map_cons, List.filter_cons] at *
    rw [subKeyMatch_upsFun]
    by_cases ha : subKeyMatch c f a = true
    · simp only [ha, if_pos, List.length_cons, ih]
    · simp only [ha, if_neg, ih]
      simp [Bool.not_eq_true] at ha
      simp [ha, ih]

/-- The upsert preserves the at-most-one-row-per-key invariant. -/
theorem upsertRow_uniqueKeys (row : SubInput) (now : String) (L : List SubRow)
    (h : UniqueSubKeys L) :
    UniqueSubKeys (upsertCreatorSubscriptionRow row now L) := by
  intro c f
  unfold upsertCreatorSubscriptionRow
  by_cases hany : L.any (subKeyMatch row.creator_id row.fan_id) = true
  · rw [if_pos hany, keyCountBy_map_upsFun]
    exact h c f
  · rw [if_neg hany]
    unfold keyCountBy
    rw [List.filter_append, List.length_append]
    by_cases hrec : subKeyMatch c f (subRecord row now) = true
    · have hzero : keyCountBy L c f = 0 := by
        unfold keyCountBy
        rw [List.length_eq_zero, List.filter_eq_nil_iff]
        intro x hx
        intro hxk
        simp only [subKeyMatch, subRecord, Bool.and_eq_true, beq_iff_eq] at hrec
        rw [List.any_eq_true] at hany
        apply hany
        refine ⟨x, hx, ?_⟩
        simp only [subKeyMatch, Bool.and_eq_true, beq_iff_eq] at hxk ⊢
        exact ⟨by rw [hxk.1, hrec.1], by rw [hxk.2, hrec.2]⟩
      unfold keyCountBy at hzero
      rw [hzero]
      simp [hrec]
    · have : List.filter (fun x => subKeyMatch c f x) [subRecord row now] = [] := by
        simp [hrec]
      rw [this]
      simpa using h c f

/-- When both correlation ids are present, `upsertFromStripeSubscription`
is exactly the keyed row upsert of the record built from the subject. -/
theorem upsertFromStripeSubscription_eq_of_ids (sub : Option EventObj)
    (now : String) (L : List SubRow)
    (hfan : safeStr ((sub.bind (·.metadata)).bind (·.fan_id)) ≠ "")
    (hcre : safeStr ((sub.bind (·.metadata)).bind (·.creator_id)) ≠ "") :
    upsertFromStripeSubscription sub now L =
      upsertCreatorSubscriptionRow (subInputOf sub) now L := by
  unfold upsertFromStripeSubscription
  rw [if_neg]
  intro h
  rcases h with h | h
  · exact hfan h
  · exact hcre h

/-! ## Claim theorems -/

/-- C1: for every normalized subscription subject carrying both the fan id
and the creator id metadata, applying the ledger upsert twice with the
same input yields the same `creator_subscriptions` table as applying it
once, and the result keeps at most one row per (fan_id, creator_id) key. -/
theorem upsertFromStripeSubscription_idempotent (sub : Option EventObj)
    (now : String) (L : List SubRow)
    (hfan : safeStr ((sub.bind (·.metadata)).bind (·.fan_id)) ≠ "")
    (hcre : safeStr ((sub.bind (·.metadata)).bind (·.creator_id)) ≠ "")
    (huniq : UniqueSubKeys L) :
    upsertFromStripeSubscription sub now
        (upsertFromStripeSubscription sub now L) =
      upsertFromStripeSubscription sub now L ∧
    UniqueSubKeys (upsertFromStripeSubscription sub now L) := by
  rw [upsertFromStripeSubscription_eq_of_ids sub now L hfan hcre]
  rw [upsertFromStripeSubscription_eq_of_ids sub now _ hfan hcre]
  exact ⟨upsertRow_idem _ _ _, upsertRow_uniqueKeys _ _ _ huniq⟩

/-- Witness for C1: one concrete subject with metadata, upserted into an
empty ledger. -/
theorem upsertFromStripeSubscription_idempotent_witness :
    upsertFromStripeSubscription
        (some { id := some "sub_1", mode := none, subscription := none,
                metadata := some { fan_id := some "F1", creator_id := some "C1" },
                customer := some (.str "cus_1"), status := some "active",
                current_period_end := some 100, cancel_at_period_end := false,
                charges_enabled := false, payouts_enabled := false })
        "T1"
        (upsertFromStripeSubscription
          (some { id := some "sub_1", mode := none, subscription := none,
                  metadata := some { fan_id := some "F1", creator_id := some "C1" },
                  customer := some (.str "cus_1"), status := some "active",
                  current_period_end := some 100, cancel_at_period_end := false,
                  charges_enabled := false, payouts_enabled := false })
          "T1" []) =
      upsertFromStripeSubscription
        (some { id := some "sub_1", mode := none, subscription := none,
                metadata := some { fan_id := some "F1", creator_id := some "C1" },
                customer := some (.str "cus_1"), status := some "active",
                current_period_end := some 100, cancel_at_period_end := false,
                charges_enabled := false, payouts_enabled := false })
        "T1" [] :=
  (upsertFromStripeSubscription_idempotent _ "T1" []
    (by decide) (by decide) (fun c f => by simp [keyCountBy])).1

/-- C3: a subscription subject with metadata present, scheduled
cancellation (`cancel_at_period_end = true`) and a period end in the
future reconciles to a ledger row with `status = "canceled"` and
`is_active = true`. -/
theorem gracePeriod_row (sub : EventObj) (now : String) (nowSec pe : Int)
    (L : List SubRow)
    (hfan : safeStr (sub.metadata.bind (·.fan_id)) ≠ "")
    (hcre : safeStr (sub.metadata.bind (·.creator_id)) ≠ "")
    (hcancel : sub.cancel_at_period_end = true)
    (hcpe : sub.current_period_end = some pe)
    (hfut : nowSec < pe) :
    (∀ r ∈ upsertFromStripeSubscription (some sub) now L,
        subKeyMatch (safeStr (sub.metadata.bind (·.creator_id)))
          (safeStr (sub.metadata.bind (·.fan_id))) r = true →
        r.status = "canceled" ∧ r.is_active = true) ∧
    ∃ r ∈ upsertFromStripeSubscription (some sub) now L,
      subKeyMatch (safeStr (sub.metadata.bind (·.creator_id)))
        (safeStr (sub.metadata.bind (·.fan_id))) r = true := by
  have hfan' : safeStr (((some sub).bind (·.metadata)).bind (·.fan_id)) ≠ "" := hfan
  have hcre' : safeStr (((some sub).bind (·.metadata)).bind (·.creator_id)) ≠ "" := hcre
  rw [upsertFromStripeSubscription_eq_of_ids (some sub) now L hfan' hcre']
  have hkey :
      (subInputOf (some sub)).creator_id =
        safeStr (sub.metadata.bind (·.creator_id)) ∧
      (subInputOf (some sub)).fan_id = safeStr (sub.metadata.bind (·.fan_id)) := by
    constructor <;> simp [subInputOf, Option.bind]
  have hstat : (subInputOf (some sub)).status = "canceled" := by
    simp [subInputOf, Option.bind, hcancel]
  have hact : (subInputOf (some sub)).is_active = true := by
    simp [subInputOf, Option.bind, hcancel]
  constructor
  · intro r hr hk
    have hreq : r = subRecord (subInputOf (some sub)) now := by
      apply upsertRow_key_rows (subInputOf (some sub)) now L r hr
      rw [hkey.1, hkey.2]
      exact hk
    rw [hreq]
    exact ⟨by simp [subRecord, hstat], by simp [subRecord, hact]⟩
  · refine ⟨subRecord (subInputOf (some sub)) now, upsertRow_mem _ _ _, ?_⟩
    have h0 := subKeyMatch_subRecord (subInputOf (some sub)) now
    rwa [hkey.1, hkey.2] at h0

/-- Witness for C3: a concrete scheduled-cancel subject upserted into an
empty ledger keeps access (`is_active = true`) with status "canceled". -/
theorem gracePeriod_row_witness :
    ∃ r ∈ upsertFromStripeSubscription
        (some { id := some "sub_1", mode := none, subscription := none,
                metadata := some { fan_id := some "F1", creator_id := some "C1" },
                customer := some (.str "cus_1"), status := some "active",
                current_period_end := some 200, cancel_at_period_end := true,
                charges_enabled := false, payouts_enabled := false })
        "T1" [],
      subKeyMatch "C1" "F1" r = true ∧
        r.status = "canceled" ∧ r.is_active = true := by
  have h := gracePeriod_row
    { id := some "sub_1", mode := none, subscription := none,
      metadata := some { fan_id := some "F1", creator_id := some "C1" },
      customer := some (.str "cus_1"), status := some "active",
      current_period_end := some 200, cancel_at_period_end := true,
      charges_enabled := false, payouts_enabled := false }
    "T1" 100 200 [] (by decide) (by decide) rfl rfl (by decide)
  obtain ⟨hall, r, hr, hk⟩ := h
  exact ⟨r, hr, hk, hall r hr hk⟩

/-- C4 counterexample: the claim "every string other than the eight listed
provider statuses maps to past_due" fails at "ACTIVE", which is not one of
the listed strings yet maps to "active" (the code lower-cases first). -/
theorem mapStatusToDb_unlisted_counterexample :
    "ACTIVE" ∉ ["active", "trialing", "past_due", "unpaid", "canceled",
        "incomplete", "incomplete_expired", "paused"] ∧
      mapStatusToDb "ACTIVE" ≠ "past_due" := by
  constructor
  · decide
  · decide

/-- C4 (amended): the mapper lower-cases its input and then applies the
fixed table — active/trialing ↦ active, past_due/unpaid ↦ past_due,
canceled ↦ canceled, incomplete/incomplete_expired ↦ expired,
paused ↦ past_due — and every string whose lower-cased form is not one of
those eight maps to "past_due". -/
theorem mapStatusToDb_table :
    mapStatusToDb "active" = "active" ∧ mapStatusToDb "trialing" = "active" ∧
    mapStatusToDb "past_due" = "past_due" ∧ mapStatusToDb "unpaid" = "past_due" ∧
    mapStatusToDb "canceled" = "canceled" ∧
    mapStatusToDb "incomplete" = "expired" ∧
    mapStatusToDb "incomplete_expired" = "expired" ∧
    mapStatusToDb "paused" = "past_due" ∧
    ∀ s : String,
      jsToLower s ∉ ["active", "trialing", "past_due", "unpaid", "canceled",
        "incomplete", "incomplete_expired", "paused"] →
      mapStatusToDb s = "past_due" := by
  refine ⟨by decide, by decide, by decide, by decide, by decide, by decide,
    by decide, by decide, ?_⟩
  intro s h
  simp only [List.mem_cons, List.not_mem_nil, or_false, not_or] at h
  obtain ⟨h1, h2, h3, h4, h5, h6, h7, h8⟩ := h
  simp only [mapStatusToDb]
  rw [if_neg (by simp [h1, h2]), if_neg (by simp [h3, h4]), if_neg h5,
    if_neg (by simp [h7, h6]), if_neg h8]

/-- Witness for C4 (amended): an unknown lower-case status maps to the
fail-safe "past_due". -/
theorem mapStatusToDb_table_witness : mapStatusToDb "zzz" = "past_due" :=
  mapStatusToDb_table.2.2.2.2.2.2.2.2 "zzz" (by decide)

/-- C10: the cancellation path keyed by provider subscription id is a
frame-preserving PATCH: the table keeps exactly the same rows in the same
order (none created, none deleted), every row keeps its `fan_id`,
`creator_id`, `stripe_customer_id`, `stripe_subscription_id` and
`current_period_end`, and rows whose subscription id does not match are
fully unchanged. -/
theorem cancelByStripeSubscriptionId_frame (stripeSubId now : String)
    (L : List SubRow) :
    List.Forall₂
      (fun r r' =>
        r'.fan_id = r.fan_id ∧ r'.creator_id = r.creator_id ∧
        r'.stripe_customer_id = r.stripe_customer_id ∧
        r'.stripe_subscription_id = r.stripe_subscription_id ∧
        r'.current_period_end = r.current_period_end ∧
        (r.stripe_subscription_id ≠ some stripeSubId → r' = r))
      L (cancelByStripeSubscriptionId stripeSubId now L) := by
  induction L with
  | nil => exact List.Forall₂.nil
  | cons a t ih =>
    refine List.Forall₂.cons ?_ ih
    by_cases ha : a.stripe_subscription_id == some stripeSubId
    · simp only [cancelByStripeSubscriptionId]
      rw [if_pos ha]
      refine ⟨rfl, rfl, rfl, rfl, rfl, fun hne => ?_⟩
      exact absurd (beq_iff_eq.mp ha) hne
    · simp only [cancelByStripeSubscriptionId]
      rw [if_neg ha]
      exact ⟨rfl, rfl, rfl, rfl, rfl, fun _ => rfl⟩

/-- Witness for C10: a two-row ledger where only the matching row is
rewritten and the other row is untouched. -/
theorem cancelByStripeSubscriptionId_frame_witness :
    cancelByStripeSubscriptionId "sub_1" "T1"
        [{ fan_id := "F1", creator_id := "C1", status := "active",
           is_active := true, current_period_end := some 100,
           stripe_customer_id := some "cus_1",
           stripe_subscription_id := some "sub_1", updated_at := "T0" },
         { fan_id := "F2", creator_id := "C2", status := "active",
           is_active := true, current_period_end := some 100,
           stripe_customer_id := some "cus_2",
           stripe_subscription_id := some "sub_2", updated_at := "T0" }] =
      [{ fan_id := "F1", creator_id := "C1", status := "canceled",
         is_active := false, current_period_end := some 100,
         stripe_customer_id := some "cus_1",
         stripe_subscription_id := some "sub_1", updated_at := "T1" },
       { fan_id := "F2", creator_id := "C2", status := "active",
         is_active := true, current_period_end := some 100,
         stripe_customer_id := some "cus_2",
         stripe_subscription_id := some "sub_2", updated_at := "T0" }] := by
  have h := cancelByStripeSubscriptionId_frame "sub_1" "T1"
    [{ fan_id := "F1", creator_id := "C1", status := "active",
       is_active := true, current_period_end := some 100,
       stripe_customer_id := some "cus_1",
       stripe_subscription_id := some "sub_1", updated_at := "T0" },
     { fan_id := "F2", creator_id := "C2", status := "active",
       is_active := true, current_period_end := some 100,
       stripe_customer_id := some "cus_2",
       stripe_subscription_id := some "sub_2", updated_at := "T0" }]
  have hlen := h.length_eq
  decide

/-! ## Lemmas about the HTTP handler -/

/-- A subject missing either correlation id leaves the ledger untouched. -/
theorem upsertFromStripeSubscription_noop (sub : Option EventObj) (now : String)
    (L : List SubRow)
    (hmeta : safeStr ((sub.bind (·.metadata)).bind (·.fan_id)) = "" ∨
             safeStr ((sub.bind (·.metadata)).bind (·.creator_id)) = "") :
    upsertFromStripeSubscription sub now L = L := by
  unfold upsertFromStripeSubscription
  rw [if_pos hmeta]

/-- Dispatch: a verified, parsed `account.updated` event runs exactly the
account reconciliation and acknowledges with 200. -/
theorem handleRequest_account_eq (hmac : String → String → String)
    (jsonParse : String → Except String Event)
    (stripeSubs : String → Except String EventObj)
    (secret now sig rawBody : String) (st : Store) (ev : Event)
    (hverify : verifyStripeSignature hmac rawBody sig secret = true)
    (hparse : jsonParse rawBody = .ok ev)
    (hty : safeStr ev.type = "account.updated") :
    handleRequest hmac jsonParse stripeSubs secret now
        ⟨"POST", some sig, rawBody⟩ st =
      (handleAccountUpdated ev.data_object now st, ⟨"ok", 200⟩) := by
  simp +decide [handleRequest, handleInner, hverify, hparse, hty]

/-- The account path patches the located profile's flags and status. -/
theorem handleAccountUpdated_profiles (obj : Option EventObj) (now : String)
    (st : Store) (uid : String)
    (hacct : safeStr (obj.bind (·.id)) ≠ "")
    (hlook : lookupProfileUserId st.profiles (safeStr (obj.bind (·.id))) = some uid) :
    (handleAccountUpdated obj now st).profiles =
      patchProfileFlags uid ((obj.map (·.charges_enabled)).getD false)
        ((obj.map (·.payouts_enabled)).getD false)
        (if ((obj.map (·.charges_enabled)).getD false &&
             (obj.map (·.payouts_enabled)).getD false) = true
         then "completed" else "started")
        st.profiles := by
  simp [handleAccountUpdated, hacct, hlook]

/-- The account path writes the payout entitlement exactly when both
observed flags are enabled. -/
theorem handleAccountUpdated_entitlements (obj : Option EventObj) (now : String)
    (st : Store) (uid : String)
    (hacct : safeStr (obj.bind (·.id)) ≠ "")
    (hlook : lookupProfileUserId st.profiles (safeStr (obj.bind (·.id))) = some uid) :
    (handleAccountUpdated obj now st).entitlements =
      (if ((obj.map (·.charges_enabled)).getD false &&
           (obj.map (·.payouts_enabled)).getD false) = true
       then upsertEntitlement
              { user_id := uid, key := "payouts_enabled",
                status := "active", updated_at := now } st.entitlements
       else st.entitlements) := by
  simp [handleAccountUpdated, hacct, hlook]

/-- After the profile PATCH, rows of the targeted user carry the written
onboarding status. -/
theorem patchProfileFlags_status (userId : String) (ch py : Bool)
    (onb : String) (L : List ProfileRow) :
    ∀ p ∈ patchProfileFlags userId ch py onb L, p.user_id = userId →
      p.stripe_onboarding_status = onb := by
  intro p hp hpu
  unfold patchProfileFlags at hp
  obtain ⟨q, hq, hfq⟩ := List.mem_map.mp hp
  by_cases hqu : (q.user_id == userId) = true
  · rw [if_pos hqu] at hfq
    rw [← hfq]
  · rw [if_neg hqu] at hfq
    rw [← hfq] at hpu
    exact absurd (beq_iff_eq.mpr hpu) hqu

/-- After the cancellation PATCH, rows matching the subscription id are
canceled and inactive. -/
theorem cancel_rows_canceled (subId now : String) (L : List SubRow) :
    ∀ r ∈ cancelByStripeSubscriptionId subId now L,
      r.stripe_subscription_id = some subId →
        r.status = "canceled" ∧ r.is_active = false := by
  intro r hr hid
  unfold cancelByStripeSubscriptionId at hr
  obtain ⟨q, hq, hfq⟩ := List.mem_map.mp hr
  by_cases h : (q.stripe_subscription_id == some subId) = true
  · rw [if_pos h] at hfq
    rw [← hfq]
    exact ⟨rfl, rfl⟩
  · rw [if_neg h] at hfq
    rw [← hfq] at hid
    exact absurd (beq_iff_eq.mpr hid) h

/-! ## Concrete fixtures for witnesses and counterexamples -/

/-- A subscription-updated subject with no correlation metadata. -/
def objNoMeta : EventObj :=
  { id := some "sub_9"
    mode := none
    subscription := none
    metadata := none
    customer := none
    status := some "active"
    current_period_end := some 300
    cancel_at_period_end := false
    charges_enabled := false
    payouts_enabled := false }

/-- An account subject with both capabilities enabled. -/
def objAcctBoth : EventObj :=
  { id := some "acct_1"
    mode := none
    subscription := none
    metadata := none
    customer := none
    status := none
    current_period_end := none
    cancel_at_period_end := false
    charges_enabled := true
    payouts_enabled := true }

/-- An account subject with payouts still disabled. -/
def objAcctHalf : EventObj :=
  { id := some "acct_1"
    mode := none
    subscription := none
    metadata := none
    customer := none
    status := none
    current_period_end := none
    cancel_at_period_end := false
    charges_enabled := true
    payouts_enabled := false }

/-- A deleted-subscription subject carrying the provider id "sub_1". -/
def objDeleted : EventObj :=
  { id := some "sub_1"
    mode := none
    subscription := none
    metadata := none
    customer := none
    status := none
    current_period_end := none
    cancel_at_period_end := false
    charges_enabled := false
    payouts_enabled := false }

/-- A creator profile connected to account "acct_1", already fully
enabled. -/
def profEnabled : ProfileRow :=
  { user_id := "u1"
    stripe_connect_account_id := some "acct_1"
    stripe_account_id := none
    charges_enabled := true
    payouts_enabled := true
    stripe_onboarding_status := "completed" }

/-- A creator profile connected to account "acct_1", not yet enabled. -/
def profPending : ProfileRow :=
  { user_id := "u1"
    stripe_connect_account_id := some "acct_1"
    stripe_account_id := none
    charges_enabled := false
    payouts_enabled := false
    stripe_onboarding_status := "started" }

/-- The payout grant row for `profEnabled` as recorded at time "T0". -/
def grantT0 : EntRow :=
  { user_id := "u1", key := "payouts_enabled", status := "active",
    updated_at := "T0" }

/-- An active ledger row for (F1, C1) bound to subscription "sub_1". -/
def rowActiveSub1 : SubRow :=
  { fan_id := "F1"
    creator_id := "C1"
    status := "active"
    is_active := true
    current_period_end := some 100
    stripe_customer_id := some "cus_1"
    stripe_subscription_id := some "sub_1"
    updated_at := "T0" }

/-! ## Claim theorems about the handler -/

/-- C5: a verified, parsed subscription created/updated event whose
subject lacks the fan id or the creator id metadata leaves the whole store
unchanged and is acknowledged with HTTP 200, body "ok". -/
theorem missingMetadata_noop (hmac : String → String → String)
    (jsonParse : String → Except String Event)
    (stripeSubs : String → Except String EventObj)
    (secret now sig rawBody : String) (st : Store) (ev : Event)
    (hverify : verifyStripeSignature hmac rawBody sig secret = true)
    (hparse : jsonParse rawBody = .ok ev)
    (hty : safeStr ev.type = "customer.subscription.created" ∨
           safeStr ev.type = "customer.subscription.updated")
    (hmeta : safeStr ((ev.data_object.bind (·.metadata)).bind (·.fan_id)) = "" ∨
             safeStr ((ev.data_object.bind (·.metadata)).bind (·.creator_id)) = "") :
    handleRequest hmac jsonParse stripeSubs secret now
        ⟨"POST", some sig, rawBody⟩ st = (st, ⟨"ok", 200⟩) := by
  have hnoop := upsertFromStripeSubscription_noop ev.data_object now
    st.creator_subscriptions hmeta
  rcases hty with hty | hty <;>
    simp +decide [handleRequest, handleInner, hverify, hparse, hty, hnoop]

/-- Witness for C5: a subscription-updated event with no metadata at all
is a 200 no-op on the empty store. -/
theorem missingMetadata_noop_witness :
    handleRequest (fun _ _ => "X")
        (fun _ => .ok ⟨some "customer.subscription.updated", some objNoMeta⟩)
        (fun _ => .error "unused") "sek" "T1"
        ⟨"POST", some "t=1,v1=X", "raw"⟩ ⟨[], [], []⟩ =
      (⟨[], [], []⟩, ⟨"ok", 200⟩) :=
  missingMetadata_noop (fun _ _ => "X") _ _ "sek" "T1" "t=1,v1=X" "raw"
    ⟨[], [], []⟩ _ (by decide) rfl (Or.inr (by decide)) (Or.inl (by decide))

/-- C6 counterexample: a request whose body passes signature verification
but fails JSON parsing is answered with HTTP 500 (the parse error is only
caught by the generic handler), not with the HTTP 400 the claim states. -/
theorem malformedJson_counterexample :
    verifyStripeSignature (fun s m => s ++ "#" ++ m) "not json"
        "t=1,v1=sek#1.not json" "sek" = true ∧
    (handleRequest (fun s m => s ++ "#" ++ m)
        (fun _ => .error "Unexpected token")
        (fun _ => .error "unused") "sek" "T1"
        ⟨"POST", some "t=1,v1=sek#1.not json", "not json"⟩
        ⟨[], [], []⟩).2.status = 500 ∧
    (handleRequest (fun s m => s ++ "#" ++ m)
        (fun _ => .error "Unexpected token")
        (fun _ => .error "unused") "sek" "T1"
        ⟨"POST", some "t=1,v1=sek#1.not json", "not json"⟩
        ⟨[], [], []⟩).2.status ≠ 400 := by
  refine ⟨by decide, by decide, by decide⟩

/-- C6 (amended): a POST whose body passes signature verification but is
not parseable JSON is answered with HTTP 500 ("Server Error: …", the
generic catch), which makes the provider retry; the store is unchanged. -/
theorem malformedJson_http500 (hmac : String → String → String)
    (jsonParse : String → Except String Event)
    (stripeSubs : String → Except String EventObj)
    (secret now sig rawBody msg : String) (st : Store)
    (hverify : verifyStripeSignature hmac rawBody sig secret = true)
    (hparse : jsonParse rawBody = .error msg) :
    handleRequest hmac jsonParse stripeSubs secret now
        ⟨"POST", some sig, rawBody⟩ st =
      (st, ⟨"Server Error: " ++ msg, 500⟩) := by
  simp +decide [handleRequest, handleInner, hverify, hparse]

/-- Witness for C6 (amended): a concrete unparseable body behind a valid
signature yields the 500 response. -/
theorem malformedJson_http500_witness :
    handleRequest (fun s m => s ++ "!" ++ m) (fun _ => .error "boom")
        (fun _ => .error "unused") "k" "T1"
        ⟨"POST", some "t=2,v1=k!2.xyz", "xyz"⟩ ⟨[], [], []⟩ =
      (⟨[], [], []⟩, ⟨"Server Error: " ++ "boom", 500⟩) :=
  malformedJson_http500 (fun s m => s ++ "!" ++ m) _ _ "k" "T1"
    "t=2,v1=k!2.xyz" "xyz" "boom" ⟨[], [], []⟩ (by decide) rfl

/-- C7 counterexample: a profile already fully enabled (both flags true,
onboarding completed) with its payout grant already recorded; re-delivering
the fully-enabled account event writes the grant record again (its
`updated_at` is restamped), although no transition into the enabled state
happened — the claim says no grant is recorded in this case. -/
theorem entitlementGrant_retrigger_counterexample :
    profEnabled.charges_enabled = true ∧ profEnabled.payouts_enabled = true ∧
    (handleRequest (fun _ _ => "X")
        (fun _ => .ok ⟨some "account.updated", some objAcctBoth⟩)
        (fun _ => .error "unused") "sek" "T1"
        ⟨"POST", some "t=1,v1=X", "raw"⟩
        ⟨[], [profEnabled], [grantT0]⟩).1.entitlements ≠ [grantT0] := by
  refine ⟨rfl, rfl, by decide⟩

/-- C7 (amended): on the account-updated path with a located creator
profile, the payout access-grant record is upserted (merge-on-conflict,
so no duplicate row) exactly when the observed account state has both
`charges_enabled` and `payouts_enabled` true — regardless of the
previously stored state; when either flag is false no entitlement write
happens. -/
theorem entitlementGrant_iff_enabled (hmac : String → String → String)
    (jsonParse : String → Except String Event)
    (stripeSubs : String → Except String EventObj)
    (secret now sig rawBody : String) (st : Store) (ev : Event) (uid : String)
    (hverify : verifyStripeSignature hmac rawBody sig secret = true)
    (hparse : jsonParse rawBody = .ok ev)
    (hty : safeStr ev.type = "account.updated")
    (hacct : safeStr (ev.data_object.bind (·.id)) ≠ "")
    (hlook : lookupProfileUserId st.profiles
        (safeStr (ev.data_object.bind (·.id))) = some uid) :
    (((ev.data_object.map (·.charges_enabled)).getD false &&
      (ev.data_object.map (·.payouts_enabled)).getD false) = false →
      (handleRequest hmac jsonParse stripeSubs secret now
          ⟨"POST", some sig, rawBody⟩ st).1.entitlements = st.entitlements) ∧
    (((ev.data_object.map (·.charges_enabled)).getD false &&
      (ev.data_object.map (·.payouts_enabled)).getD false) = true →
      (handleRequest hmac jsonParse stripeSubs secret now
          ⟨"POST", some sig, rawBody⟩ st).1.entitlements =
        upsertEntitlement
          { user_id := uid, key := "payouts_enabled",
            status := "active", updated_at := now } st.entitlements) := by
  rw [handleRequest_account_eq hmac jsonParse stripeSubs secret now sig rawBody
    st ev hverify hparse hty]
  constructor <;> intro hflag <;>
    simp [handleAccountUpdated_entitlements ev.data_object now st uid hacct hlook,
      hflag]

/-- Witness for C7 (amended): an account event with payouts disabled
records no entitlement. -/
theorem entitlementGrant_iff_enabled_witness :
    (handleRequest (fun _ _ => "W")
        (fun _ => .ok ⟨some "account.updated", some objAcctHalf⟩)
        (fun _ => .error "unused") "sek" "T1"
        ⟨"POST", some "t=1,v1=W", "raw"⟩
        ⟨[], [profPending], []⟩).1.entitlements = ([] : List EntRow) :=
  (entitlementGrant_iff_enabled (fun _ _ => "W") _ _ "sek" "T1" "t=1,v1=W" "raw"
    _ _ "u1" (by decide) rfl (by decide) (by decide) (by decide)).1 (by decide)

/-- C8: a verified "customer.subscription.deleted" event carrying a
subscription id is acknowledged with HTTP 200, and afterwards every
ledger row matching that provider subscription id has status "canceled"
and is_active false. -/
theorem subscriptionDeleted_cancels (hmac : String → String → String)
    (jsonParse : String → Except String Event)
    (stripeSubs : String → Except String EventObj)
    (secret now sig rawBody : String) (st : Store) (ev : Event)
    (hverify : verifyStripeSignature hmac rawBody sig secret = true)
    (hparse : jsonParse rawBody = .ok ev)
    (hty : safeStr ev.type = "customer.subscription.deleted")
    (hsub : safeStr (ev.data_object.bind (·.id)) ≠ "") :
    (handleRequest hmac jsonParse stripeSubs secret now
        ⟨"POST", some sig, rawBody⟩ st).2 = ⟨"ok", 200⟩ ∧
    ∀ r ∈ (handleRequest hmac jsonParse stripeSubs secret now
        ⟨"POST", some sig, rawBody⟩ st).1.creator_subscriptions,
      r.stripe_subscription_id = some (safeStr (ev.data_object.bind (·.id))) →
        r.status = "canceled" ∧ r.is_active = false := by
  constructor
  · simp +decide [handleRequest, handleInner, hverify, hparse, hty, hsub]
  · intro r hr hid
    simp +decide [handleRequest, handleInner, hverify, hparse, hty, hsub] at hr
    exact cancel_rows_canceled _ now st.creator_subscriptions r hr hid

/-- Witness for C8: deleting "sub_1" cancels the concrete matching row. -/
theorem subscriptionDeleted_cancels_witness :
    (handleRequest (fun _ _ => "Y")
        (fun _ => .ok ⟨some "customer.subscription.deleted", some objDeleted⟩)
        (fun _ => .error "unused") "sek" "T1"
        ⟨"POST", some "t=3,v1=Y", "raw"⟩
        ⟨[rowActiveSub1], [], []⟩).2 = ⟨"ok", 200⟩ :=
  (subscriptionDeleted_cancels (fun _ _ => "Y") _ _ "sek" "T1" "t=3,v1=Y" "raw"
    _ _ (by decide) rfl (by decide) (by decide)).1

/-- C9: after an account-updated reconciliation that located a creator
profile, every stored profile row of that creator carries onboarding
status "completed" exactly when both observed flags were true, and
"started" whenever either flag was false. -/
theorem onboardingStatus_invariant (hmac : String → String → String)
    (jsonParse : String → Except String Event)
    (stripeSubs : String → Except String EventObj)
    (secret now sig rawBody : String) (st : Store) (ev : Event) (uid : String)
    (hverify : verifyStripeSignature hmac rawBody sig secret = true)
    (hparse : jsonParse rawBody = .ok ev)
    (hty : safeStr ev.type = "account.updated")
    (hacct : safeStr (ev.data_object.bind (·.id)) ≠ "")
    (hlook : lookupProfileUserId st.profiles
        (safeStr (ev.data_object.bind (·.id))) = some uid) :
    ∀ p ∈ (handleRequest hmac jsonParse stripeSubs secret now
        ⟨"POST", some sig, rawBody⟩ st).1.profiles,
      p.user_id = uid →
      p.stripe_onboarding_status =
        (if ((ev.data_object.map (·.charges_enabled)).getD false &&
             (ev.data_object.map (·.payouts_enabled)).getD false) = true
         then "completed" else "started") := by
  intro p hp hpu
  rw [handleRequest_account_eq hmac jsonParse stripeSubs secret now sig rawBody
    st ev hverify hparse hty] at hp
  rw [show (handleAccountUpdated ev.data_object now st,
      (⟨"ok", 200⟩ : HttpResponse)).1 = handleAccountUpdated ev.data_object now st
    from rfl] at hp
  rw [handleAccountUpdated_profiles ev.data_object now st uid hacct hlook] at hp
  exact patchProfileFlags_status uid _ _ _ st.profiles p hp hpu

/-- The profile row as it stands after the half-enabled account event of
the C9 witness. -/
def profHalfPatched : ProfileRow :=
  { user_id := "u1"
    stripe_connect_account_id := some "acct_1"
    stripe_account_id := none
    charges_enabled := true
    payouts_enabled := false
    stripe_onboarding_status := "started" }

/-- Witness for C9: an account event with payouts disabled leaves the
located profile with onboarding status "started". -/
theorem onboardingStatus_invariant_witness :
    profHalfPatched.stripe_onboarding_status = "started" :=
  onboardingStatus_invariant (fun _ _ => "Z")
    (fun _ => .ok ⟨some "account.updated", some objAcctHalf⟩)
    (fun _ => .error "unused") "sek" "T1" "t=4,v1=Z" "raw"
    ⟨[], [profPending], []⟩
    _ "u1" (by decide) rfl (by decide) (by decide) (by decide)
    profHalfPatched (by decide) (by decide)

end OnlyPaws
